import Mathlib

/-
  Verification of the MVP booking-management backend
  (sources: main.py, pydantic_models.py, app/datamanager/data_manager_interface.py).

  The Pydantic field validators and the route bodies of main.py are embedded
  directly from the source.  The concrete SQLAlchemy data manager
  (data_manager_SQLAlchemy.py) is not part of the source tree; only its
  abstract interface (data_manager_interface.py) is.  Where a definition
  depends on that missing implementation it is marked `Modelled from the
  spec:` in its doc comment and follows the specification's wording.

  Modelling conventions:
  - Python `datetime` values are modelled as `Int` (e.g. epoch seconds),
    Python `date` values as `Int` (proleptic ordinal day numbers): only their
    linear order is ever consulted by the code under verification.
  - `Decimal` monetary amounts (2 decimal places) are modelled as integer
    cent amounts, `timedelta` as its `total_seconds()` value (an `Int`).
  - `EmailStr` / `HttpUrl` fields are modelled as `String`: no claim depends
    on their internal structure.
  - Python exceptions raised by validators are modelled by `PyExn`:
    pydantic turns a `ValueError` raised in a field validator into a
    VALIDATION_ERROR response, while an `AttributeError` escapes the
    validation machinery (it is not converted into a validation error).
-/

namespace MVP

/-- Python exceptions that the embedded validator code can raise.  A
`valueError` corresponds to the spec's VALIDATION_ERROR taxonomy entry
(pydantic v2 converts a ValueError raised in a field validator into a
validation error); an `attributeError` or `typeError` is an uncaught
runtime fault, not a validation error. -/
inductive PyExn
  | valueError (msg : String)
  | attributeError (msg : String)
  | typeError (msg : String)
deriving DecidableEq, Repr

/-- Error taxonomy of the API layer (spec section 7); `internalError`
stands for an exception that escapes the validation machinery. -/
inductive ApiError
  | validationError (msg : String)
  | notFound
  | forbidden (msg : String)
  | internalError (msg : String)
deriving DecidableEq, Repr

/-- How a Python exception raised during pydantic model validation
surfaces at the API boundary: a ValueError becomes a VALIDATION_ERROR;
AttributeError / TypeError escape pydantic (which only converts ValueError
and AssertionError) and surface as an internal error. -/
def pyExnToApiError : PyExn → ApiError
  | .valueError msg => .validationError msg
  | .attributeError msg => .internalError msg
  | .typeError msg => .internalError msg

/- ==================== Telephone-number validation ====================

   pydantic_models.py, three identical validators
   (UserCreatePydantic.validate_phone_number,
    UserNoPwdPydantic.validate_phone_number,
    UserUpdatePydantic.validate_phone_number,
    AccommodationPydantic.validate_phone_number):

       if not re.match(r"^\+?\d[\d\s\-]+$", v):
           raise ValueError("Invalid telephone number format")
       return v
-/

/-- Character class of Python's `\s` in a Unicode (str) pattern: the ASCII
whitespace characters plus the separator characters CPython's `re` module
treats as whitespace. -/
def isPySpace (c : Char) : Bool :=
  c = ' ' || c = '\t' || c = '\n' || c = '\r' || c = '\x0b' || c = '\x0c' ||
  c = '\x1c' || c = '\x1d' || c = '\x1e' || c = '\x1f' || c = '\x85' ||
  c = '\xa0' || c = '\u1680' || c = '\u2000' || c = '\u2001' || c = '\u2002' ||
  c = '\u2003' || c = '\u2004' || c = '\u2005' || c = '\u2006' || c = '\u2007' ||
  c = '\u2008' || c = '\u2009' || c = '\u200a' || c = '\u2028' || c = '\u2029' ||
  c = '\u202f' || c = '\u205f' || c = '\u3000'

/-- Character class of Python's `\d`.  The embedding restricts the alphabet
to the ASCII decimal digits (Python's Unicode `\d` additionally matches
non-ASCII decimal digits; no claim depends on those). -/
def isPyDigit (c : Char) : Bool := c.isDigit

/-- Regular expressions over `Char`, with exactly the constructs used by the
source pattern `^\+?\d[\d\s\-]+$`: a single character class, concatenation,
an optional piece, and one-or-more repetition of a character class. -/
inductive Re
  | cls (p : Char → Bool)
  | seq (a b : Re)
  | opt (a : Re)
  | plusCls (p : Char → Bool)

/-- All ways of splitting a list into a prefix/suffix pair. -/
def splits : List Char → List (List Char × List Char)
  | [] => [([], [])]
  | c :: rest => ([], c :: rest) :: (splits rest).map fun uv => (c :: uv.1, uv.2)

/-- Matching a whole word against a regular expression. -/
def reMatch : Re → List Char → Bool
  | .cls p, s =>
    match s with
    | [c] => p c
    | _ => false
  | .seq a b, s => (splits s).any fun uv => reMatch a uv.1 && reMatch b uv.2
  | .opt a, s => s.isEmpty || reMatch a s
  | .plusCls p, s => !s.isEmpty && s.all p

/-- Characters matched by the source pattern's class `[\d\s\-]`. -/
def isPhoneTailChar (c : Char) : Bool := isPyDigit c || isPySpace c || c = '-'

/-- The source pattern `^\+?\d[\d\s\-]+$` (anchored whole-string match:
`re.match` anchors at the start, the final `$` at the end; the
"`$` also matches just before a trailing newline" case of Python adds no
further accepted strings because `\n` is itself in the class `[\d\s\-]`). -/
def phoneRe : Re :=
  .seq (.opt (.cls fun c => c = '+'))
    (.seq (.cls isPyDigit) (.plusCls isPhoneTailChar))

/-- Embeds `validate_phone_number` from pydantic_models.py (shared by the
User models and AccommodationPydantic). -/
def validate_phone_number (v : String) : Except PyExn String :=
  if reMatch phoneRe v.toList then .ok v
  else .error (.valueError "Invalid telephone number format")

/-- Restated from the claim's words (not from the source): optional leading
'+', a first digit, then one or more characters each of which is a digit,
the space character, or a dash. -/
def claimPhonePattern (s : List Char) : Bool :=
  match s with
  | [] => false
  | '+' :: d :: rest =>
    isPyDigit d && !rest.isEmpty && rest.all fun c => isPyDigit c || c = ' ' || c = '-'
  | d :: rest =>
    isPyDigit d && !rest.isEmpty && rest.all fun c => isPyDigit c || c = ' ' || c = '-'

/-- Structural description of the strings the source pattern accepts:
optional leading '+', a first digit, then one or more characters each of
which is a digit, a Python-whitespace character, or a dash. -/
def phoneShape (s : List Char) : Bool :=
  match s with
  | [] => false
  | c :: rest =>
    if c = '+' then
      match rest with
      | [] => false
      | d :: rest2 => isPyDigit d && !rest2.isEmpty && rest2.all isPhoneTailChar
    else
      isPyDigit c && !rest.isEmpty && rest.all isPhoneTailChar

/- ==================== Currency-code validation ====================

   pydantic_models.py (ContractPydantic.validate_currency_code and the
   identical ContractUpdatePydantic.validate_currency_code):

       try:
           Currency(v)
           return v
       except ValueError:
           raise ValueError("Invalid ISO 4217 currency code")

   `Currency` is the enum of the `iso4217` package, generated from the ISO
   4217 table A.1 of current currency and funds codes; `Currency(v)` is an
   enum lookup by value, which succeeds exactly when `v` is one of the
   (uppercase) alphabetic codes of that table and raises ValueError
   otherwise. -/

/-- Alphabetic codes of ISO 4217 table A.1 (current currency and funds
codes), as shipped with the `iso4217` package used by the source.  Note the
table includes the special codes `XAU`, `XDR`, `XTS`, `XXX`, etc.; `XXX` is
the ISO 4217 code assigned for transactions involving no currency. -/
def iso4217AlphaCodes : List String :=
  ["AED", "AFN", "ALL", "AMD", "ANG", "AOA", "ARS", "AUD", "AWG", "AZN",
   "BAM", "BBD", "BDT", "BGN", "BHD", "BIF", "BMD", "BND", "BOB", "BOV",
   "BRL", "BSD", "BTN", "BWP", "BYN", "BZD",
   "CAD", "CDF", "CHE", "CHF", "CHW", "CLF", "CLP", "CNY", "COP", "COU",
   "CRC", "CUC", "CUP", "CVE", "CZK",
   "DJF", "DKK", "DOP", "DZD",
   "EGP", "ERN", "ETB", "EUR",
   "FJD", "FKP",
   "GBP", "GEL", "GHS", "GIP", "GMD", "GNF", "GTQ", "GYD",
   "HKD", "HNL", "HRK", "HTG", "HUF",
   "IDR", "ILS", "INR", "IQD", "IRR", "ISK",
   "JMD", "JOD", "JPY",
   "KES", "KGS", "KHR", "KMF", "KPW", "KRW", "KWD", "KYD", "KZT",
   "LAK", "LBP", "LKR", "LRD", "LSL", "LYD",
   "MAD", "MDL", "MGA", "MKD", "MMK", "MNT", "MOP", "MRU", "MUR", "MVR",
   "MWK", "MXN", "MXV", "MYR", "MZN",
   "NAD", "NGN", "NIO", "NOK", "NPR", "NZD",
   "OMR",
   "PAB", "PEN", "PGK", "PHP", "PKR", "PLN", "PYG",
   "QAR",
   "RON", "RSD", "RUB", "RWF",
   "SAR", "SBD", "SCR", "SDG", "SEK", "SGD", "SHP", "SLE", "SLL", "SOS",
   "SRD", "SSP", "STN", "SVC", "SYP", "SZL",
   "THB", "TJS", "TMT", "TND", "TOP", "TRY", "TTD", "TWD", "TZS",
   "UAH", "UGX", "USD", "USN", "UYI", "UYU", "UYW", "UZS",
   "VED", "VES", "VND", "VUV",
   "WST",
   "XAF", "XAG", "XAU", "XBA", "XBB", "XBC", "XBD", "XCD", "XDR", "XOF",
   "XPD", "XPF", "XPT", "XSU", "XTS", "XUA", "XXX",
   "YER",
   "ZAR", "ZMW", "ZWL"]

/-- Embeds `validate_currency_code` from pydantic_models.py. -/
def validate_currency_code (v : String) : Except PyExn String :=
  if iso4217AlphaCodes.contains v then .ok v
  else .error (.valueError "Invalid ISO 4217 currency code")

/- ==================== Event field validators ====================

   pydantic_models.py, EventPydantic (and the identical copies in
   EventUpdatePydantic). -/

/-- A Python `datetime.time` value (the embedded validators consult only
`hour` and `minute`). -/
structure Time where
  hour : Int
  minute : Int
deriving DecidableEq, Repr

/-- Python attribute access `time_val.hour`: raises AttributeError when
`time_val` is None. -/
def pyHour : Option Time → Except PyExn Int
  | none => .error (.attributeError "NoneType object has no attribute hour")
  | some t => .ok t.hour

/-- Python attribute access `time_val.minute`: raises AttributeError when
`time_val` is None. -/
def pyMinute : Option Time → Except PyExn Int
  | none => .error (.attributeError "NoneType object has no attribute minute")
  | some t => .ok t.minute

/-- Embeds `validate_time_range` from pydantic_models.py
(EventPydantic and EventUpdatePydantic, registered for the fields
start, arrive, stage_set, stage_check, catering_open, catering_close and
meal_time):

    if time_val and time_val.hour < 0 or time_val.hour > 23
       or time_val.minute < 0 or time_val.minute > 59:
        raise ValueError("Time values must be within a valid 24-hour range")
    return time_val

Python operator precedence parses the guard as
`(time_val and time_val.hour < 0) or (time_val.hour > 23) or
 (time_val.minute < 0) or (time_val.minute > 59)`, with left-to-right
short-circuit evaluation; a `None` value is falsy and every
`datetime.time` / `datetime.datetime` object is truthy.  The embedding
evaluates the four disjuncts in that order, raising AttributeError where
Python would dereference an attribute of None. -/
def validate_time_range (time_val : Option Time) : Except PyExn (Option Time) :=
  let d1 : Bool :=
    match time_val with
    | none => false
    | some t => decide (t.hour < 0)
  if d1 then
    .error (.valueError "Time values must be within a valid 24-hour range")
  else
    match pyHour time_val with
    | .error e => .error e
    | .ok h =>
      if h > 23 then
        .error (.valueError "Time values must be within a valid 24-hour range")
      else
        match pyMinute time_val with
        | .error e => .error e
        | .ok m =>
          if m < 0 then
            .error (.valueError "Time values must be within a valid 24-hour range")
          else if m > 59 then
            .error (.valueError "Time values must be within a valid 24-hour range")
          else
            .ok time_val

/-- Embeds `validate_duration` from pydantic_models.py (`duration` is a
timedelta, modelled by its `total_seconds()` value). -/
def validate_duration (duration : Int) : Except PyExn Int :=
  if duration ≤ 0 then
    .error (.valueError "Duration must be a positive time interval")
  else .ok duration

/-- Embeds `validate_future_date` from pydantic_models.py; `today` is the
value of `date.today()` at validation time and dates are compared by their
linear order:

    today = date.today()
    if date_val < today:
        raise ValueError("Date must be today or in the future")
    return date_val
-/
def validate_future_date (today : Int) (date_val : Int) : Except PyExn Int :=
  if date_val < today then
    .error (.valueError "Date must be today or in the future")
  else .ok date_val

/- ==================== Partial-update merge ====================

   The SQLAlchemy data manager that performs updates is not under src/
   (only data_manager_interface.py is); the merge rule below follows the
   spec: "merge only the fields present in the update payload into the
   stored instance (partial update — absent fields are left untouched,
   explicit nulls clear a field)".

   An update-payload field is `none` when absent from the payload and
   `some x` when present with value `x`; for a nullable stored field the
   present value is itself an `Option`, so `some none` is an explicit null.
-/

/-- Modelled from the spec: merge of one possibly-missing payload value
into a required (non-nullable) stored field — `some v` replaces the stored
value; `none` (the field was absent, or carried an explicit null aimed at
a non-nullable column, which cannot clear it) keeps the stored value. -/
def mergeReq {α : Type} (stored : α) (payload : Option α) : α :=
  payload.getD stored

/-- Modelled from the spec: merge of one update-payload field into a
nullable stored field — absent (`none`) keeps the stored value, an explicit
null (`some none`) clears it, a present value (`some (some v)`) replaces
it. -/
def mergeOpt {α : Type} (stored : Option α) (payload : Option (Option α)) : Option α :=
  payload.getD stored

/- ==================== Pydantic v2 payload validation ====================

   A raw JSON body field is encoded as `Option (Option α)`:
   `none` = the key is absent, `some none` = an explicit null,
   `some (some v)` = the value `v`.  Under pydantic v2 (the source imports
   `field_validator`, so it runs on v2) a field declared `Optional[X]`
   WITHOUT a default is required: it must be present, though it may be
   null; only fields with a declared default (`= None`, `Field(...)`) may
   be absent.  Validation of a model instance below reports the first
   failing field (pydantic aggregates ValueErrors across fields, but a
   payload fails validation exactly when some field fails, and a
   non-ValueError aborts immediately; no theorem below depends on which
   of several failing fields is reported). -/

/-- Pydantic v2 validation of a required non-nullable field (e.g. `str`):
an absent key or an explicit null is a validation error. -/
def reqField {α : Type} (f : Option (Option α)) : Except PyExn α :=
  match f with
  | none => .error (.valueError "Field required")
  | some none => .error (.valueError "Input should be a valid value")
  | some (some v) => .ok v

/-- Pydantic v2 validation of a required nullable field (`Optional[X]`
with no default): an absent key is a validation error, an explicit null
is accepted as None. -/
def reqNullableField {α : Type} (f : Option (Option α)) : Except PyExn (Option α) :=
  match f with
  | none => .error (.valueError "Field required")
  | some v => .ok v

/- ==================== User ==================== -/

/-- A stored User row: the fields of UserCreatePydantic plus the
server-assigned id, with the credential stored hashed (cf. UserInDB in
pydantic_models.py and the spec's data model). -/
structure User where
  id : Int
  username : String
  hashed_password : String
  type_of_entity : String
  name : String
  surname : String
  email_address : String
  phone_number : String
  vat_id : Option String
  bank_account : Option String
  is_active : Bool
  deactivation_date : Option Int
  delete_at : Option Int
deriving DecidableEq, Repr

/-- The fields of UserNoPwdPydantic (pydantic_models.py): the
credential-free projection used as response_model of `/user/me/`. -/
structure UserNoPwd where
  id : Int
  username : String
  type_of_entity : String
  name : String
  surname : String
  email_address : String
  phone_number : String
  vat_id : Option String
  bank_account : Option String
  is_active : Bool
  deactivation_date : Option Int
  delete_at : Option Int
deriving DecidableEq, Repr

/-- Projection of a stored User through the UserNoPwdPydantic
response model (field-by-field copy; UserNoPwdPydantic declares no
password field, so the credential is dropped). -/
def toUserNoPwd (u : User) : UserNoPwd :=
  { id := u.id
    username := u.username
    type_of_entity := u.type_of_entity
    name := u.name
    surname := u.surname
    email_address := u.email_address
    phone_number := u.phone_number
    vat_id := u.vat_id
    bank_account := u.bank_account
    is_active := u.is_active
    deactivation_date := u.deactivation_date
    delete_at := u.delete_at }

/-- The fields of UserUpdatePydantic (pydantic_models.py), with payload
presence tracked: all eleven fields are optional in the update payload,
including is_active, deactivation_date and delete_at. -/
structure UserUpdate where
  username : Option String := none
  type_of_entity : Option String := none
  name : Option String := none
  surname : Option String := none
  email_address : Option String := none
  phone_number : Option String := none
  vat_id : Option (Option String) := none
  bank_account : Option (Option String) := none
  is_active : Option Bool := none
  deactivation_date : Option (Option Int) := none
  delete_at : Option (Option Int) := none
deriving DecidableEq, Repr

/-- Modelled from the spec: the data manager merges a UserUpdatePydantic
payload into the stored User row (data_manager_SQLAlchemy.update_user is
not under src/); the mergeable fields are exactly those declared by
UserUpdatePydantic — id and the hashed credential are untouched. -/
def applyUserUpd (u : User) (p : UserUpdate) : User :=
  { u with
    username := mergeReq u.username p.username
    type_of_entity := mergeReq u.type_of_entity p.type_of_entity
    name := mergeReq u.name p.name
    surname := mergeReq u.surname p.surname
    email_address := mergeReq u.email_address p.email_address
    phone_number := mergeReq u.phone_number p.phone_number
    vat_id := mergeOpt u.vat_id p.vat_id
    bank_account := mergeOpt u.bank_account p.bank_account
    is_active := mergeReq u.is_active p.is_active
    deactivation_date := mergeOpt u.deactivation_date p.deactivation_date
    delete_at := mergeOpt u.delete_at p.delete_at }

/-- Embeds main.update_user / DataManagerInterface.update_user: the
authenticated actor updates their own row (current_user.id is passed as
the row id); the merge itself is modelled from the spec. -/
def update_user (store : Int → Option User) (user_data_to_update : UserUpdate)
    (current_user_id : Int) : Except ApiError User × (Int → Option User) :=
  match store current_user_id with
  | none => (.error .notFound, store)
  | some u =>
    let u2 := applyUserUpd u user_data_to_update
    (.ok u2, fun i => if i = current_user_id then some u2 else store i)

/-- Embeds main.get_user_me: fetches the authenticated actor's own row and
returns it through the UserNoPwdPydantic response model. -/
def get_user_me (store : Int → Option User) (current_user_id : Int) :
    Except ApiError UserNoPwd :=
  match store current_user_id with
  | none => .error .notFound
  | some u => .ok (toUserNoPwd u)

/- ==================== Profile ==================== -/

/-- A stored Profile row: the fields of ProfilePydantic plus the owning
user stamped at creation (main.create_profile passes current_user.id). -/
structure Profile where
  owner_user_id : Int
  name : String
  performance_type : String
  description : String
  bio : String
  social_media : List (Option String)
  stage_plan : Option String
  tech_rider : Option String
  photos : List (Option String)
  videos : List (Option String)
  audios : List (Option String)
  online_press : List (Option String)
  website : Option String
deriving DecidableEq, Repr

/-- A raw JSON body for the profile routes (each key absent, null, or a
value), validated against ProfilePydantic below. -/
structure ProfileRaw where
  name : Option (Option String) := none
  performance_type : Option (Option String) := none
  description : Option (Option String) := none
  bio : Option (Option String) := none
  social_media : Option (Option (List (Option String))) := none
  stage_plan : Option (Option String) := none
  tech_rider : Option (Option String) := none
  photos : Option (Option (List (Option String))) := none
  videos : Option (Option (List (Option String))) := none
  audios : Option (Option (List (Option String))) := none
  online_press : Option (Option (List (Option String))) := none
  website : Option (Option String) := none
deriving DecidableEq, Repr

/-- A validated ProfilePydantic instance, with payload presence kept for
the three defaulted fields (pydantic's fields_set, consulted by an
exclude_unset merge): name, performance_type, description, bio,
social_media, photos, videos, audios and online_press are required
non-nullable; stage_plan, tech_rider and website default to None and may
be absent. -/
structure ProfileData where
  name : String
  performance_type : String
  description : String
  bio : String
  social_media : List (Option String)
  stage_plan : Option (Option String) := none
  tech_rider : Option (Option String) := none
  photos : List (Option String)
  videos : List (Option String)
  audios : List (Option String)
  online_press : List (Option String)
  website : Option (Option String) := none
deriving DecidableEq, Repr

/-- Embeds validation of a request body against ProfilePydantic
(pydantic_models.py) — the model main.update_profile (and create_profile)
declares for its body: nine required non-nullable fields, three defaulted
optional ones, no field validators.  A partial payload (any required key
absent) is rejected before the route body runs. -/
def validateProfilePydantic (raw : ProfileRaw) : Except PyExn ProfileData := do
  let name ← reqField raw.name
  let performance_type ← reqField raw.performance_type
  let description ← reqField raw.description
  let bio ← reqField raw.bio
  let social_media ← reqField raw.social_media
  let photos ← reqField raw.photos
  let videos ← reqField raw.videos
  let audios ← reqField raw.audios
  let online_press ← reqField raw.online_press
  return { name := name, performance_type := performance_type,
           description := description, bio := bio,
           social_media := social_media, stage_plan := raw.stage_plan,
           tech_rider := raw.tech_rider, photos := photos, videos := videos,
           audios := audios, online_press := online_press,
           website := raw.website }

/-- Modelled from the spec: the data manager merges the fields present in
the validated profile payload into the stored Profile row
(data_manager_SQLAlchemy.update_profile is not under src/): the nine
required fields are always present and replace the stored values, the
three defaulted fields are merged by presence (absent kept, explicit null
cleared); owner_user_id is never part of the payload. -/
def applyProfileUpd (p : Profile) (d : ProfileData) : Profile :=
  { p with
    name := d.name
    performance_type := d.performance_type
    description := d.description
    bio := d.bio
    social_media := d.social_media
    stage_plan := mergeOpt p.stage_plan d.stage_plan
    tech_rider := mergeOpt p.tech_rider d.tech_rider
    photos := d.photos
    videos := d.videos
    audios := d.audios
    online_press := d.online_press
    website := mergeOpt p.website d.website }

/-- Modelled from the spec: the data-manager layer of main.update_profile
receives (profile_id, validated payload, current_user.id); per the spec it
requires actor == profile.owner_user_id and otherwise denies with "not the
owner"; on success the updated instance is persisted and returned. -/
def dm_update_profile (store : Int → Option Profile) (profile_id : Int)
    (d : ProfileData) (current_user_id : Int) :
    Except ApiError Profile × (Int → Option Profile) :=
  match store profile_id with
  | none => (.error .notFound, store)
  | some p =>
    if current_user_id = p.owner_user_id then
      let p2 := applyProfileUpd p d
      (.ok p2, fun i => if i = profile_id then some p2 else store i)
    else (.error (.forbidden "not the owner"), store)

/-- Embeds main.update_profile (main.py:158-173): the route body is
declared with `profile_data: ProfilePydantic`, so the raw body is
validated against ProfilePydantic before the route body runs (a
validation failure reaches no store operation); the validated payload is
then forwarded with current_user.id to the data manager. -/
def update_profile (store : Int → Option Profile) (profile_id : Int)
    (raw : ProfileRaw) (current_user_id : Int) :
    Except ApiError Profile × (Int → Option Profile) :=
  match validateProfilePydantic raw with
  | .error e => (.error (pyExnToApiError e), store)
  | .ok d => dm_update_profile store profile_id d current_user_id

/-- Modelled from the spec: main.delete_profile forwards
(profile_id, current_user.id) to the data manager; delete requires
actor == profile.owner_user_id and is a hard delete returning a boolean
success flag. -/
def delete_profile (store : Int → Option Profile) (profile_id : Int)
    (current_user_id : Int) : Except ApiError Bool × (Int → Option Profile) :=
  match store profile_id with
  | none => (.error .notFound, store)
  | some p =>
    if current_user_id = p.owner_user_id then
      (.ok true, fun i => if i = profile_id then none else store i)
    else (.error (.forbidden "not the owner"), store)

/- ==================== Contract ==================== -/

/-- A stored Contract row: the fields of ContractPydantic plus the creating
user stamped at creation (main.create_contract passes current_user). -/
structure Contract where
  owner_user_id : Int
  name : String
  offeree_id : Int
  total_fee : Int
  currency_code : String
  upon_signing : Int
  upon_completion : Int
  payment_method : String
  travel_expenses : Option Int
  accommodation_expenses : Option Int
  other_expenses : Option Int
  disabled : Bool
  disabled_at : Option Int
  signed_at : Option Int
  delete_at : Option Int
deriving DecidableEq, Repr

/-- The fields of ContractPydantic (pydantic_models.py), the contract
creation payload; `disabled` defaults to False and the timestamps to
None. -/
structure ContractCreate where
  name : String
  offeree_id : Int
  total_fee : Int
  currency_code : String
  upon_signing : Int
  upon_completion : Int
  payment_method : String
  travel_expenses : Option Int := none
  accommodation_expenses : Option Int := none
  other_expenses : Option Int := none
  disabled : Bool := false
  disabled_at : Option Int := none
  signed_at : Option Int := none
  delete_at : Option Int := none
deriving DecidableEq, Repr

/-- Pydantic model validation of a contract creation payload: the only
field validator declared by ContractPydantic is validate_currency_code,
and it runs before the route body (hence before any store access). -/
def contractValidate (data : ContractCreate) : Except PyExn ContractCreate :=
  match validate_currency_code data.currency_code with
  | .error e => .error e
  | .ok _ => .ok data

/-- The stored row built from a validated creation payload, stamped with
the creating user. -/
def contractOfCreate (data : ContractCreate) (current_user_id : Int) : Contract :=
  { owner_user_id := current_user_id
    name := data.name
    offeree_id := data.offeree_id
    total_fee := data.total_fee
    currency_code := data.currency_code
    upon_signing := data.upon_signing
    upon_completion := data.upon_completion
    payment_method := data.payment_method
    travel_expenses := data.travel_expenses
    accommodation_expenses := data.accommodation_expenses
    other_expenses := data.other_expenses
    disabled := data.disabled
    disabled_at := data.disabled_at
    signed_at := data.signed_at
    delete_at := data.delete_at }

/-- Embeds main.create_contract with the pydantic boundary: the payload is
validated by ContractPydantic before the route body runs, so a validation
failure reaches no store operation and creates no record; on success the
record is stored under the fresh id `next_id` and that id is returned
(the persistence step itself is modelled from the spec, the data manager
implementation being outside src/). -/
def create_contract (store : Int → Option Contract) (next_id : Int)
    (contract_data : ContractCreate) (current_user_id : Int) :
    Except PyExn Int × (Int → Option Contract) :=
  match contractValidate contract_data with
  | .error e => (.error e, store)
  | .ok d =>
    let c := contractOfCreate d current_user_id
    (.ok next_id, fun i => if i = next_id then some c else store i)

/-- A raw JSON body for PUT /contract, validated against
ContractUpdatePydantic below. -/
structure ContractUpdateRaw where
  name : Option (Option String) := none
  offeree_id : Option (Option Int) := none
  total_fee : Option (Option Int) := none
  currency_code : Option (Option String) := none
  upon_signing : Option (Option Int) := none
  upon_completion : Option (Option Int) := none
  payment_method : Option (Option String) := none
  travel_expenses : Option (Option Int) := none
  accommodation_expenses : Option (Option Int) := none
  other_expenses : Option (Option Int) := none
deriving DecidableEq, Repr

/-- A validated ContractUpdatePydantic instance (pydantic_models.py).  The
model declares exactly ten updatable fields — the lines for disabled,
disabled_at, signed_at and delete_at are commented out in the source, so
no update payload can carry them.  Under pydantic v2 the seven fields
declared `Optional[X]` with no default (name through payment_method) are
required-nullable: always present, possibly null (`Option X` here); the
three expense fields default to None and carry payload presence
(`Option (Option Int)`, pydantic's fields_set). -/
structure ContractUpdate where
  name : Option String := none
  offeree_id : Option Int := none
  total_fee : Option Int := none
  currency_code : Option String := none
  upon_signing : Option Int := none
  upon_completion : Option Int := none
  payment_method : Option String := none
  travel_expenses : Option (Option Int) := none
  accommodation_expenses : Option (Option Int) := none
  other_expenses : Option (Option Int) := none
deriving DecidableEq, Repr

/-- Embeds ContractUpdatePydantic.validate_currency_code as it runs on the
update model's required-nullable field: pydantic v2 calls the validator on
the validated value, so an explicit null reaches `Currency(None)`, which
raises ValueError (None is not an enum value) and is re-raised as the
"Invalid ISO 4217 currency code" error. -/
def validate_currency_code_upd (v : Option String) : Except PyExn (Option String) :=
  match v with
  | none => .error (.valueError "Invalid ISO 4217 currency code")
  | some s =>
    match validate_currency_code s with
    | .error e => .error e
    | .ok s2 => .ok (some s2)

/-- Embeds validation of a request body against ContractUpdatePydantic:
the seven no-default fields must be present (absent keys are rejected with
"Field required"), the currency validator runs on the provided
currency_code, and the three defaulted expense fields keep their payload
presence. -/
def validateContractUpdatePydantic (raw : ContractUpdateRaw) :
    Except PyExn ContractUpdate := do
  let name ← reqNullableField raw.name
  let offeree_id ← reqNullableField raw.offeree_id
  let total_fee ← reqNullableField raw.total_fee
  let currency_code0 ← reqNullableField raw.currency_code
  let currency_code ← validate_currency_code_upd currency_code0
  let upon_signing ← reqNullableField raw.upon_signing
  let upon_completion ← reqNullableField raw.upon_completion
  let payment_method ← reqNullableField raw.payment_method
  return { name := name, offeree_id := offeree_id, total_fee := total_fee,
           currency_code := currency_code, upon_signing := upon_signing,
           upon_completion := upon_completion, payment_method := payment_method,
           travel_expenses := raw.travel_expenses,
           accommodation_expenses := raw.accommodation_expenses,
           other_expenses := raw.other_expenses }

/-- Modelled from the spec: the data manager merges a validated
ContractUpdatePydantic payload into the stored Contract row
(data_manager_SQLAlchemy.update_contract is not under src/); the mergeable
fields are exactly those declared by ContractUpdatePydantic, so
owner_user_id, disabled, disabled_at, signed_at and delete_at are
untouched.  A non-null value replaces the stored value; an explicit null
on one of the seven non-nullable columns cannot clear it and is modelled
as keeping the stored value (no theorem depends on that case); null or a
value on the nullable expense columns clears or replaces by presence. -/
def applyContractUpd (c : Contract) (p : ContractUpdate) : Contract :=
  { c with
    name := mergeReq c.name p.name
    offeree_id := mergeReq c.offeree_id p.offeree_id
    total_fee := mergeReq c.total_fee p.total_fee
    currency_code := mergeReq c.currency_code p.currency_code
    upon_signing := mergeReq c.upon_signing p.upon_signing
    upon_completion := mergeReq c.upon_completion p.upon_completion
    payment_method := mergeReq c.payment_method p.payment_method
    travel_expenses := mergeOpt c.travel_expenses p.travel_expenses
    accommodation_expenses := mergeOpt c.accommodation_expenses p.accommodation_expenses
    other_expenses := mergeOpt c.other_expenses p.other_expenses }

/-- Modelled from the spec: main.update_contract forwards
(contract_id, payload, current_user.id) to the data manager; per the spec
update requires the actor to be a party to the contract (its creator) and
a disabled contract is terminal for updates ("a subsequent update attempt
fails"), so the update path first denies non-parties, then rejects
disabled contracts, and otherwise merges and returns the updated
instance. -/
def update_contract (store : Int → Option Contract) (contract_id : Int)
    (contract_data : ContractUpdate) (current_user_id : Int) :
    Except ApiError Contract × (Int → Option Contract) :=
  match store contract_id with
  | none => (.error .notFound, store)
  | some c =>
    if current_user_id = c.owner_user_id then
      if c.disabled then
        (.error (.forbidden "contract is disabled (terminal state)"), store)
      else
        let c2 := applyContractUpd c contract_data
        (.ok c2, fun i => if i = contract_id then some c2 else store i)
    else (.error (.forbidden "not a party to the contract"), store)

/-- Embeds main.update_contract (main.py:226-241) with its pydantic
boundary: the body is validated against ContractUpdatePydantic before the
route body runs (a validation failure reaches no store operation), then
forwarded with current_user.id to the data manager. -/
def update_contract_route (store : Int → Option Contract) (contract_id : Int)
    (raw : ContractUpdateRaw) (current_user_id : Int) :
    Except ApiError Contract × (Int → Option Contract) :=
  match validateContractUpdatePydantic raw with
  | .error e => (.error (pyExnToApiError e), store)
  | .ok u => update_contract store contract_id u current_user_id

/-- Confirmation payload of disable_contract / soft_delete_user:
{id, name, effective timestamp} (spec section 6). -/
structure DisableConfirmation where
  id : Int
  name : String
  disabled_at : Int
deriving DecidableEq, Repr

/-- Modelled from the spec: main.disable_contract forwards
(contract_id, disable_at, current_user.id) to the data manager, which per
the spec requires the actor to be a party (its creator), sets
disabled=true and disabled_at (provided or now — the caller passes the
effective timestamp here) and returns a confirmation payload. -/
def disable_contract (store : Int → Option Contract) (contract_id : Int)
    (disable_at : Int) (current_user_id : Int) :
    Except ApiError DisableConfirmation × (Int → Option Contract) :=
  match store contract_id with
  | none => (.error .notFound, store)
  | some c =>
    if current_user_id = c.owner_user_id then
      let c2 := { c with disabled := true, disabled_at := some disable_at }
      (.ok { id := contract_id, name := c2.name, disabled_at := disable_at },
       fun i => if i = contract_id then some c2 else store i)
    else (.error (.forbidden "not a party to the contract"), store)

/-- The contract-mutating operations reachable through the public API
(main.py routes POST /contract, PUT /contract/id, PATCH /contract/id):
creation, the normal update path, and disabling. -/
inductive ContractOp
  | createOp (next_id : Int) (data : ContractCreate) (actor : Int)
  | updateOp (contract_id : Int) (payload : ContractUpdate) (actor : Int)
  | disableOp (contract_id : Int) (t : Int) (actor : Int)

/-- One public-API step on the contract store; a failed operation leaves
the store unchanged.  For creation the Entity Store assigns a new
identifier (spec section 4.2), so a creation whose id already names a row
never overwrites it. -/
def contractStep (store : Int → Option Contract) : ContractOp → (Int → Option Contract)
  | .createOp next_id data actor =>
    match store next_id with
    | some _ => store
    | none => (create_contract store next_id data actor).2
  | .updateOp contract_id payload actor =>
    (update_contract store contract_id payload actor).2
  | .disableOp contract_id t actor =>
    (disable_contract store contract_id t actor).2

/-- Running a sequence of public-API contract operations. -/
def runContractOps (store : Int → Option Contract) : List ContractOp → (Int → Option Contract)
  | [] => store
  | op :: rest => runContractOps (contractStep store op) rest

/- ==================== Event ==================== -/

/-- A stored Event row: the fields of EventPydantic (pydantic_models.py);
`end_` models the source field `end` (a Lean keyword); the `arrive`
datetime is modelled by the (hour, minute) pair, the only parts the
validators consult. -/
structure Event where
  id : Int
  created_at : Option Int
  name : String
  contract_id : Int
  profile_offeror_id : Int
  profile_offeree_id : Int
  contact_person : Option String
  contact_phone : Option String
  date : Int
  duration : Int
  start : Time
  end_ : Time
  arrive : Option Time
  stage_set : Option Time
  stage_check : Option Time
  catering_open : Option Time
  catering_close : Option Time
  meal_time : Option Time
  meal_location_name : String
  meal_location_address : String
  accommodation_id : Option Int
deriving DecidableEq, Repr

/-- A raw JSON body for PUT /event, validated against EventUpdatePydantic
below. -/
structure EventUpdateRaw where
  name : Option (Option String) := none
  contract_id : Option (Option Int) := none
  profile_offeror_id : Option (Option Int) := none
  profile_offeree_id : Option (Option Int) := none
  contact_person : Option (Option String) := none
  contact_phone : Option (Option String) := none
  date : Option (Option Int) := none
  duration : Option (Option Int) := none
  start : Option (Option Time) := none
  end_ : Option (Option Time) := none
  arrive : Option (Option Time) := none
  stage_set : Option (Option Time) := none
  stage_check : Option (Option Time) := none
  catering_open : Option (Option Time) := none
  catering_close : Option (Option Time) := none
  meal_time : Option (Option Time) := none
  meal_location_name : Option (Option String) := none
  meal_location_address : Option (Option String) := none
  accommodation_id : Option (Option Int) := none
deriving DecidableEq, Repr

/-- A validated EventUpdatePydantic instance (pydantic_models.py).  Under
pydantic v2 the ten fields declared `Optional[X]` with no default (name,
contract_id, profile_offeror_id, profile_offeree_id, date, duration,
start, end, meal_location_name, meal_location_address) are
required-nullable: always present, possibly null (`Option X` here); the
nine defaulted fields carry payload presence (`Option (Option X)`,
pydantic's fields_set). -/
structure EventUpdate where
  name : Option String := none
  contract_id : Option Int := none
  profile_offeror_id : Option Int := none
  profile_offeree_id : Option Int := none
  contact_person : Option (Option String) := none
  contact_phone : Option (Option String) := none
  date : Option Int := none
  duration : Option Int := none
  start : Option Time := none
  end_ : Option Time := none
  arrive : Option (Option Time) := none
  stage_set : Option (Option Time) := none
  stage_check : Option (Option Time) := none
  catering_open : Option (Option Time) := none
  catering_close : Option (Option Time) := none
  meal_time : Option (Option Time) := none
  meal_location_name : Option String := none
  meal_location_address : Option String := none
  accommodation_id : Option (Option Int) := none
deriving DecidableEq, Repr

/-- Embeds EventUpdatePydantic.validate_duration as it runs on the update
model's required-nullable duration: an explicit null reaches
`duration.total_seconds()` on None and raises AttributeError. -/
def validate_duration_upd (duration : Option Int) : Except PyExn (Option Int) :=
  match duration with
  | none => .error (.attributeError "NoneType object has no attribute total_seconds")
  | some d =>
    match validate_duration d with
    | .error e => .error e
    | .ok d2 => .ok (some d2)

/-- Embeds EventUpdatePydantic.validate_future_date as it runs on the
update model's required-nullable date: an explicit null reaches
`None < today` and raises TypeError. -/
def validate_future_date_upd (today : Int) (date_val : Option Int) :
    Except PyExn (Option Int) :=
  match date_val with
  | none => .error (.typeError "comparison not supported between NoneType and date")
  | some d =>
    match validate_future_date today d with
    | .error e => .error e
    | .ok d2 => .ok (some d2)

/-- Embeds how validate_time_range runs on one of the defaulted time
fields of EventUpdatePydantic: pydantic v2 skips validators for absent
fields (the default is used unvalidated) and otherwise runs the validator
on the provided value — which for an explicit null crashes as in the C9
theorem. -/
def validateProvidedTime (f : Option (Option Time)) :
    Except PyExn (Option (Option Time)) :=
  match f with
  | none => .ok none
  | some v =>
    match validate_time_range v with
    | .error e => .error e
    | .ok v2 => .ok (some v2)

/-- Embeds validation of a request body against EventUpdatePydantic: the
ten no-default fields must be present (absent keys are rejected with
"Field required"), the date / duration / time-range validators run on the
provided values, and the defaulted fields keep their payload presence. -/
def validateEventUpdatePydantic (today : Int) (raw : EventUpdateRaw) :
    Except PyExn EventUpdate := do
  let name ← reqNullableField raw.name
  let contract_id ← reqNullableField raw.contract_id
  let profile_offeror_id ← reqNullableField raw.profile_offeror_id
  let profile_offeree_id ← reqNullableField raw.profile_offeree_id
  let date0 ← reqNullableField raw.date
  let date ← validate_future_date_upd today date0
  let duration0 ← reqNullableField raw.duration
  let duration ← validate_duration_upd duration0
  let start0 ← reqNullableField raw.start
  let start ← validate_time_range start0
  let end0 ← reqNullableField raw.end_
  let meal_location_name ← reqNullableField raw.meal_location_name
  let meal_location_address ← reqNullableField raw.meal_location_address
  let arrive ← validateProvidedTime raw.arrive
  let stage_set ← validateProvidedTime raw.stage_set
  let stage_check ← validateProvidedTime raw.stage_check
  let catering_open ← validateProvidedTime raw.catering_open
  let catering_close ← validateProvidedTime raw.catering_close
  let meal_time ← validateProvidedTime raw.meal_time
  return { name := name, contract_id := contract_id,
           profile_offeror_id := profile_offeror_id,
           profile_offeree_id := profile_offeree_id,
           contact_person := raw.contact_person,
           contact_phone := raw.contact_phone,
           date := date, duration := duration, start := start, end_ := end0,
           arrive := arrive, stage_set := stage_set, stage_check := stage_check,
           catering_open := catering_open, catering_close := catering_close,
           meal_time := meal_time, meal_location_name := meal_location_name,
           meal_location_address := meal_location_address,
           accommodation_id := raw.accommodation_id }

/-- Modelled from the spec: the data manager merges a validated
EventUpdatePydantic payload into the stored Event row
(data_manager_SQLAlchemy.update_event is not under src/); id and
created_at are server-assigned and untouched.  Non-null values replace the
ten non-nullable columns (an explicit null cannot clear them and is
modelled as keeping the stored value); the nine nullable columns are
merged by payload presence. -/
def applyEventUpd (e : Event) (p : EventUpdate) : Event :=
  { e with
    name := mergeReq e.name p.name
    contract_id := mergeReq e.contract_id p.contract_id
    profile_offeror_id := mergeReq e.profile_offeror_id p.profile_offeror_id
    profile_offeree_id := mergeReq e.profile_offeree_id p.profile_offeree_id
    contact_person := mergeOpt e.contact_person p.contact_person
    contact_phone := mergeOpt e.contact_phone p.contact_phone
    date := mergeReq e.date p.date
    duration := mergeReq e.duration p.duration
    start := mergeReq e.start p.start
    end_ := mergeReq e.end_ p.end_
    arrive := mergeOpt e.arrive p.arrive
    stage_set := mergeOpt e.stage_set p.stage_set
    stage_check := mergeOpt e.stage_check p.stage_check
    catering_open := mergeOpt e.catering_open p.catering_open
    catering_close := mergeOpt e.catering_close p.catering_close
    meal_time := mergeOpt e.meal_time p.meal_time
    meal_location_name := mergeReq e.meal_location_name p.meal_location_name
    meal_location_address := mergeReq e.meal_location_address p.meal_location_address
    accommodation_id := mergeOpt e.accommodation_id p.accommodation_id }

/-- Modelled from the spec: main.update_event forwards
(event_id, payload, current_user.id) to the data manager; per the spec
event operations require the actor to be tied to the event's parent
Contract via the same ownership check as Contract operations, performed
transitively through contract_id. -/
def update_event (cstore : Int → Option Contract) (estore : Int → Option Event)
    (event_id : Int) (event_data_to_update : EventUpdate) (current_user_id : Int) :
    Except ApiError Event × (Int → Option Event) :=
  match estore event_id with
  | none => (.error .notFound, estore)
  | some e =>
    match cstore e.contract_id with
    | none => (.error .notFound, estore)
    | some c =>
      if current_user_id = c.owner_user_id then
        let e2 := applyEventUpd e event_data_to_update
        (.ok e2, fun i => if i = event_id then some e2 else estore i)
      else (.error (.forbidden "not a party to the contract"), estore)

/-- Embeds main.update_event (main.py:301-316) with its pydantic boundary:
the body is validated against EventUpdatePydantic (against the current
date `today`) before the route body runs, then forwarded with
current_user.id to the data manager. -/
def update_event_route (today : Int) (cstore : Int → Option Contract)
    (estore : Int → Option Event) (event_id : Int) (raw : EventUpdateRaw)
    (current_user_id : Int) : Except ApiError Event × (Int → Option Event) :=
  match validateEventUpdatePydantic today raw with
  | .error e => (.error (pyExnToApiError e), estore)
  | .ok u => update_event cstore estore event_id u current_user_id

/- ==================== Accommodation ==================== -/

/-- A stored Accommodation row: the fields of AccommodationPydantic
(pydantic_models.py). -/
structure Accommodation where
  id : Int
  name : String
  contact_person : String
  address : String
  telephone_number : String
  email : Option String
  website : Option String
  url : Option String
  check_in : Option Int
  check_out : Option Int
deriving DecidableEq, Repr

/-- Modelled from the spec: the accommodation update payload
(main.update_accommodation names AccommodationUpdatePydantic, which is not
defined under src/); its fields follow AccommodationPydantic with payload
presence tracked, id being server-assigned. -/
structure AccommodationUpdate where
  name : Option String := none
  contact_person : Option String := none
  address : Option String := none
  telephone_number : Option String := none
  email : Option (Option String) := none
  website : Option (Option String) := none
  url : Option (Option String) := none
  check_in : Option (Option Int) := none
  check_out : Option (Option Int) := none
deriving DecidableEq, Repr

/-- Modelled from the spec: the data manager merges an accommodation update
payload into the stored row (data_manager_SQLAlchemy.update_accommodation
is not under src/). -/
def applyAccommodationUpd (a : Accommodation) (p : AccommodationUpdate) : Accommodation :=
  { a with
    name := mergeReq a.name p.name
    contact_person := mergeReq a.contact_person p.contact_person
    address := mergeReq a.address p.address
    telephone_number := mergeReq a.telephone_number p.telephone_number
    email := mergeOpt a.email p.email
    website := mergeOpt a.website p.website
    url := mergeOpt a.url p.url
    check_in := mergeOpt a.check_in p.check_in
    check_out := mergeOpt a.check_out p.check_out }

/-- Modelled from the spec: DataManagerInterface.update_accommodation
(accommodation_id, accommodation_data, db) — note the signature carries no
actor; fetch by id, merge, persist, return the updated instance. -/
def dm_update_accommodation (store : Int → Option Accommodation)
    (accommodation_id : Int) (accommodation_data : AccommodationUpdate) :
    Except ApiError Accommodation × (Int → Option Accommodation) :=
  match store accommodation_id with
  | none => (.error .notFound, store)
  | some a =>
    let a2 := applyAccommodationUpd a accommodation_data
    (.ok a2, fun i => if i = accommodation_id then some a2 else store i)

/-- Embeds main.get_accommodation: the route receives
(current_user, db, data_manager) from common_dependencies but calls
data_manager.get_accommodation_by_id(accommodation_id, db) — the actor is
never passed on (DataManagerInterface.get_accommodation_by_id takes no
actor parameter).  The data-manager function is quantified over, so the
fact holds for every implementation of the interface. -/
def get_accommodation_route {Store Res : Type} (dm_get : Int → Store → Res)
    (accommodation_id : Int) (current_user : User) (db : Store) : Res :=
  dm_get accommodation_id db

/-- Embeds main.update_accommodation: the route receives
(current_user, db, data_manager) from common_dependencies but calls
data_manager.update_accommodation(accommodation_id, accommodation_data, db)
— the actor is never passed on. -/
def update_accommodation_route {Payload Store Res : Type}
    (dm_update : Int → Payload → Store → Res) (accommodation_id : Int)
    (accommodation_data : Payload) (current_user : User) (db : Store) : Res :=
  dm_update accommodation_id accommodation_data db

/-- Embeds main.delete_accommodation: the route receives
(current_user, db, data_manager) from common_dependencies but calls
data_manager.delete_accommodation(accommodation_id, db) — the actor is
never passed on. -/
def delete_accommodation_route {Store Res : Type} (dm_delete : Int → Store → Res)
    (accommodation_id : Int) (current_user : User) (db : Store) : Res :=
  dm_delete accommodation_id db

/- ==================== Concrete sample data ==================== -/

/-- A concrete stored user (soft-deleted: inactive with a deactivation
timestamp), used to instantiate theorems at explicit inputs. -/
def userW : User :=
  { id := 1, username := "anna", hashed_password := "h1",
    type_of_entity := "person", name := "Anna", surname := "Schmidt",
    email_address := "anna@example.com", phone_number := "+49 170-123",
    vat_id := none, bank_account := none, is_active := false,
    deactivation_date := some 100, delete_at := none }

/-- A concrete user store holding `userW` under id 1. -/
def userStoreW : Int → Option User := fun i => if i = 1 then some userW else none

/-- A concrete stored profile owned by user 1. -/
def profileW : Profile :=
  { owner_user_id := 1, name := "Band", performance_type := "music",
    description := "live set", bio := "about", social_media := [],
    stage_plan := none, tech_rider := none, photos := [], videos := [],
    audios := [], online_press := [], website := none }

/-- A concrete profile store holding `profileW` under id 10. -/
def profileStoreW : Int → Option Profile :=
  fun i => if i = 10 then some profileW else none

/-- A concrete raw profile body carrying every required field (a valid
ProfilePydantic payload). -/
def profileRawW : ProfileRaw :=
  { name := some (some "Band X"), performance_type := some (some "music"),
    description := some (some "new set"), bio := some (some "updated"),
    social_media := some (some []), photos := some (some []),
    videos := some (some []), audios := some (some []),
    online_press := some (some []) }

/-- The validated instance of `profileRawW`. -/
def profileDataW : ProfileData :=
  { name := "Band X", performance_type := "music", description := "new set",
    bio := "updated", social_media := [], photos := [], videos := [],
    audios := [], online_press := [] }

/-- A concrete disabled contract created by user 1. -/
def contractW : Contract :=
  { owner_user_id := 1, name := "Gig", offeree_id := 10, total_fee := 100000,
    currency_code := "USD", upon_signing := 50, upon_completion := 50,
    payment_method := "bank transfer", travel_expenses := none,
    accommodation_expenses := none, other_expenses := none,
    disabled := true, disabled_at := some 200, signed_at := none,
    delete_at := none }

/-- A concrete contract store holding the disabled `contractW` under id 5. -/
def contractStoreW : Int → Option Contract :=
  fun i => if i = 5 then some contractW else none

/- ==================== Theorems ==================== -/

/-- A prefix/suffix pair is listed by `splits` exactly when it concatenates
back to the split word. -/
theorem mem_splits (s : List Char) :
    ∀ u v : List Char, (u, v) ∈ splits s ↔ u ++ v = s := by
  induction s with
  | nil =>
    intro u v
    simp [splits]
  | cons c rest ih =>
    intro u v
    constructor
    · intro h
      rw [splits, List.mem_cons] at h
      rcases h with h | h
      · rw [Prod.mk.injEq] at h
        rw [h.1, h.2]
        rfl
      · rw [List.mem_map] at h
        rcases h with ⟨⟨a, b⟩, hab, heq⟩
        rw [Prod.mk.injEq] at heq
        rw [← heq.1, ← heq.2]
        have hab2 := (ih a b).1 hab
        simp [hab2]
    · intro h
      cases u with
      | nil =>
        rw [splits, List.mem_cons]
        left
        rw [Prod.mk.injEq]
        exact ⟨rfl, by simpa using h⟩
      | cons a u2 =>
        have h2 : a = c ∧ u2 ++ v = rest := by simpa using h
        rw [splits, List.mem_cons]
        right
        rw [List.mem_map]
        exact ⟨(u2, v), (ih u2 v).2 h2.2, by simp [h2.1]⟩

/-- Characterization of matching a single-character class. -/
theorem reMatch_cls (p : Char → Bool) (s : List Char) :
    reMatch (.cls p) s = true ↔ ∃ c, s = [c] ∧ p c = true := by
  cases s with
  | nil => simp [reMatch]
  | cons c rest =>
    cases rest with
    | nil => simp [reMatch]
    | cons d rest2 => simp [reMatch]

/-- Characterization of matching a concatenation. -/
theorem reMatch_seq (a b : Re) (s : List Char) :
    reMatch (.seq a b) s = true ↔
      ∃ u v, u ++ v = s ∧ reMatch a u = true ∧ reMatch b v = true := by
  simp only [reMatch, List.any_eq_true, Bool.and_eq_true]
  constructor
  · rintro ⟨⟨u, v⟩, hmem, ha, hb⟩
    exact ⟨u, v, (mem_splits s u v).1 hmem, ha, hb⟩
  · rintro ⟨u, v, huv, ha, hb⟩
    exact ⟨(u, v), (mem_splits s u v).2 huv, ha, hb⟩

/-- Characterization of matching an optional piece. -/
theorem reMatch_opt (a : Re) (s : List Char) :
    reMatch (.opt a) s = true ↔ s = [] ∨ reMatch a s = true := by
  simp [reMatch, List.isEmpty_iff]

/-- Characterization of matching one-or-more repetitions of a class. -/
theorem reMatch_plusCls (p : Char → Bool) (s : List Char) :
    reMatch (.plusCls p) s = true ↔ s ≠ [] ∧ ∀ c ∈ s, p c = true := by
  simp [reMatch, List.isEmpty_iff, List.all_eq_true]

/-- A decimal digit is not the plus sign. -/
theorem isPyDigit_ne_plus {c : Char} (h : isPyDigit c = true) : ¬ c = '+' := by
  intro hc
  subst hc
  simp [isPyDigit] at h

/-- The source pattern accepts exactly the strings of the structural
description `phoneShape`. -/
theorem reMatch_phoneRe_eq_phoneShape (s : List Char) :
    reMatch phoneRe s = phoneShape s := by
  have hiff : reMatch phoneRe s = true ↔ phoneShape s = true := by
    constructor
    · intro h
      rcases (reMatch_seq _ _ s).1 h with ⟨u, v, huv, hu, hv⟩
      rcases (reMatch_seq _ _ v).1 hv with ⟨u2, v2, huv2, hd, ht⟩
      rcases (reMatch_cls _ u2).1 hd with ⟨d, hu2, hdd⟩
      rcases (reMatch_plusCls _ v2).1 ht with ⟨hne, hall⟩
      subst huv
      subst huv2
      subst hu2
      rcases (reMatch_opt _ u).1 hu with hunil | hplus
      · subst hunil
        simp [phoneShape, isPyDigit_ne_plus hdd, hdd, hne]
        all_goals exact hall
      · rcases (reMatch_cls _ u).1 hplus with ⟨cp, hup, hcp⟩
        have hcpe : cp = '+' := by simpa using hcp
        subst hcpe
        subst hup
        simp [phoneShape, hdd, hne]
        all_goals exact hall
    · intro h
      cases s with
      | nil => simp [phoneShape] at h
      | cons c rest =>
        by_cases hc : c = '+'
        · subst hc
          cases rest with
          | nil => simp [phoneShape] at h
          | cons d rest2 =>
            simp [phoneShape] at h
            rcases h with ⟨⟨hdd, hne⟩, hall⟩
            refine (reMatch_seq _ _ _).2 ⟨['+'], d :: rest2, rfl, ?_, ?_⟩
            · exact (reMatch_opt _ _).2 (Or.inr ((reMatch_cls _ _).2 ⟨'+', rfl, by simp⟩))
            · exact (reMatch_seq _ _ _).2 ⟨[d], rest2, rfl,
                (reMatch_cls _ _).2 ⟨d, rfl, hdd⟩,
                (reMatch_plusCls _ _).2 ⟨hne, hall⟩⟩
        · simp [phoneShape, hc] at h
          rcases h with ⟨⟨hdd, hne⟩, hall⟩
          refine (reMatch_seq _ _ _).2 ⟨[], c :: rest, rfl, ?_, ?_⟩
          · exact (reMatch_opt _ _).2 (Or.inl rfl)
          · exact (reMatch_seq _ _ _).2 ⟨[c], rest, rfl,
              (reMatch_cls _ _).2 ⟨c, rfl, hdd⟩,
              (reMatch_plusCls _ _).2 ⟨hne, hall⟩⟩
  cases hr : reMatch phoneRe s <;> cases hp : phoneShape s <;> simp_all

/-- C7 counterexample: the claim says the validators accept exactly the
strings "optional leading +, first digit, then one or more digits, spaces
or dashes"; but the source class `[\d\s\-]` uses `\s`, which matches every
whitespace character, not only the space.  The string "1C92" (digit, TAB,
digit) is accepted by the code although a TAB is not a digit, a space or a
dash, so the claimed characterization is false at this input. -/
theorem phone_pattern_counterexample :
    validate_phone_number "1\t2" = Except.ok "1\t2" ∧
    claimPhonePattern ("1\t2".toList) = false :=
  ⟨rfl, by decide⟩

/-- C7 (amended): the telephone validators accept exactly the strings of
the form optional leading '+', a first digit, then one or more characters
each of which is a digit, a whitespace character or a dash, and reject
every other string with a VALIDATION_ERROR. -/
theorem phone_pattern_characterization (v : String) :
    reMatch phoneRe v.toList = phoneShape v.toList ∧
    (phoneShape v.toList = true → validate_phone_number v = .ok v) ∧
    (phoneShape v.toList = false →
      validate_phone_number v = .error (.valueError "Invalid telephone number format")) := by
  refine ⟨reMatch_phoneRe_eq_phoneShape _, ?_, ?_⟩ <;> intro h <;>
    simp only [String.toList] at h <;>
    simp [validate_phone_number, reMatch_phoneRe_eq_phoneShape, h]

/-- C7 witness: the characterization applied to one accepted and one
rejected concrete string. -/
theorem phone_pattern_characterization_witness :
    validate_phone_number "+49 170-123" = Except.ok "+49 170-123" ∧
    validate_phone_number "abc"
      = Except.error (.valueError "Invalid telephone number format") :=
  ⟨(phone_pattern_characterization "+49 170-123").2.1 (by decide),
   (phone_pattern_characterization "abc").2.2 (by decide)⟩

/-- C4: event date validation accepts exactly the dates that are the
current date or later, evaluated at validation time — every date strictly
before today is rejected with a VALIDATION_ERROR (a pydantic ValueError),
every date from today on is returned unchanged, and today itself is not
rejected by the date rule. -/
theorem event_date_rule (today date_val : Int) :
    (date_val < today → validate_future_date today date_val
      = .error (.valueError "Date must be today or in the future")) ∧
    (today ≤ date_val → validate_future_date today date_val = .ok date_val) ∧
    validate_future_date today today = .ok today := by
  refine ⟨?_, ?_, ?_⟩
  · intro h
    simp [validate_future_date, h]
  · intro h
    simp [validate_future_date, not_lt.mpr h]
  · simp [validate_future_date]

/-- C4 witness: the date rule applied at a concrete today with yesterday
and with today itself. -/
theorem event_date_rule_witness :
    validate_future_date 739100 739099
      = Except.error (.valueError "Date must be today or in the future") ∧
    validate_future_date 739100 739100 = Except.ok 739100 :=
  ⟨(event_date_rule 739100 739099).1 (by decide),
   (event_date_rule 739100 739100).2.1 (by decide)⟩

/-- C9: the claim says the time-range validator returns an explicit null
unchanged without raising, i.e. that its guard is well-defined on None.
It is not: Python parses the guard as
`(time_val and time_val.hour < 0) or (time_val.hour > 23) or ...`, so for
`time_val = None` the first disjunct is falsy and the second evaluates
`None.hour`, raising AttributeError — the code crashes on an explicit null
(an operator-precedence slip: the `time_val and` guard was clearly meant
to protect all four comparisons).  On a non-null value the validator
behaves normally. -/
theorem time_range_null_crash :
    validate_time_range none
      = Except.error (.attributeError "NoneType object has no attribute hour") ∧
    validate_time_range (some { hour := 14, minute := 30 })
      = Except.ok (some { hour := 14, minute := 30 }) :=
  ⟨rfl, rfl⟩

/-- C1 counterexample: the claim says creating a contract with
currency_code "XXX" fails with a VALIDATION_ERROR and no record created;
but "XXX" is itself a valid ISO 4217 alphabetic code (the code assigned
for transactions involving no currency), so `Currency("XXX")` succeeds,
the validator accepts it, and creation succeeds and stores a record. -/
theorem currency_xxx_counterexample :
    validate_currency_code "XXX" = Except.ok "XXX" ∧
    (create_contract (fun _ => none) 1
      { name := "C", offeree_id := 2, total_fee := 100000, currency_code := "XXX",
        upon_signing := 50, upon_completion := 50, payment_method := "bank transfer" } 7).1
      = Except.ok 1 ∧
    ((create_contract (fun _ => none) 1
      { name := "C", offeree_id := 2, total_fee := 100000, currency_code := "XXX",
        upon_signing := 50, upon_completion := 50, payment_method := "bank transfer" } 7).2 1).isSome
      = true := by
  refine ⟨rfl, rfl, rfl⟩

/-- C1 (amended): contract creation rejects any currency_code that is not
an ISO 4217 alphabetic code with a VALIDATION_ERROR before any record is
created (the store is untouched); but "XXX" is a valid ISO 4217 code, so
it is accepted rather than rejected. -/
theorem currency_code_rule (store : Int → Option Contract) (next_id : Int)
    (data : ContractCreate) (current_user_id : Int)
    (h : data.currency_code ∉ iso4217AlphaCodes) :
    (create_contract store next_id data current_user_id).1
      = .error (.valueError "Invalid ISO 4217 currency code") ∧
    (create_contract store next_id data current_user_id).2 = store ∧
    "XXX" ∈ iso4217AlphaCodes := by
  refine ⟨?_, ?_, by decide⟩ <;>
    simp [create_contract, contractValidate, validate_currency_code, h]

/-- C1 witness: creation with the non-ISO-4217 code "ZZZ" fails with the
validation error and leaves the store unchanged. -/
theorem currency_code_rule_witness :
    (create_contract (fun _ => none) 1
      { name := "C", offeree_id := 2, total_fee := 100000, currency_code := "ZZZ",
        upon_signing := 50, upon_completion := 50, payment_method := "bank transfer" } 7).1
      = Except.error (.valueError "Invalid ISO 4217 currency code") :=
  (currency_code_rule (fun _ => none) 1
    { name := "C", offeree_id := 2, total_fee := 100000, currency_code := "ZZZ",
      upon_signing := 50, upon_completion := 50, payment_method := "bank transfer" } 7
    (by decide)).1

/-- Anatomy of a successful Except bind: both stages succeeded. -/
theorem except_bind_ok {e1 : Type} {a1 b1 : Type} (e : Except e1 a1)
    (f : a1 → Except e1 b1) (b : b1) (h : (e >>= f) = .ok b) :
    ∃ a, e = .ok a ∧ f a = .ok b := by
  cases e with
  | error err =>
    exfalso
    simp only [Bind.bind, Except.bind] at h
    exact Except.noConfusion h
  | ok a =>
    refine ⟨a, rfl, ?_⟩
    simpa only [Bind.bind, Except.bind] using h

/-- A required non-nullable field that validated was not absent. -/
theorem reqField_ok_ne_none {a1 : Type} {f : Option (Option a1)} {v : a1}
    (h : reqField f = .ok v) : f ≠ none := by
  intro hx
  rw [hx] at h
  simp [reqField] at h

/-- A required nullable field that validated was not absent. -/
theorem reqNullableField_ok_ne_none {a1 : Type} {f : Option (Option a1)}
    {v : Option a1} (h : reqNullableField f = .ok v) : f ≠ none := by
  intro hx
  rw [hx] at h
  simp [reqNullableField] at h

/-- C2 counterexample: the claim says that for every entity kind an update
payload may leave fields absent and the absent fields keep their stored
value.  But the profile update route validates its body against
ProfilePydantic (main.py:158-173), whose nine no-default fields are
required, so the partial payload carrying only name is rejected with a
VALIDATION_ERROR and no merge happens (the store is returned unchanged);
likewise an empty contract or event update body fails validation ("Field
required") because under pydantic v2 the no-default Optional fields of
ContractUpdatePydantic and EventUpdatePydantic are required. -/
theorem partial_payload_rejected_counterexample :
    update_profile profileStoreW 10 { name := some (some "X") } 1
      = (.error (.validationError "Field required"), profileStoreW) ∧
    validateContractUpdatePydantic {} = .error (.valueError "Field required") ∧
    validateEventUpdatePydantic 739100 {} = .error (.valueError "Field required") :=
  ⟨rfl, rfl, rfl⟩

/-- C2 (amended): update merges the payload into the stored instance and
returns it, but payload presence is constrained by the source models: the
profile route validates with ProfilePydantic, whose nine required fields
must all be present (a partial profile payload is rejected before any
store access), and under pydantic v2 the no-default Optional fields of
ContractUpdatePydantic (seven) and EventUpdatePydantic (ten) are likewise
required — present, possibly null, never absent.  Only fields with
declared defaults may be absent; an absent such field keeps the stored
value, an explicit null on a nullable stored field clears it, a present
value replaces it, and a valid update returns the merged instance.  For
User, whose update model defaults every field, update is a true partial
merge. -/
theorem update_merge_presence_rule :
    (∀ (α : Type) (s : α), mergeReq s none = s) ∧
    (∀ (α : Type) (s : α) (v : α), mergeReq s (some v) = v) ∧
    (∀ (α : Type) (s : Option α), mergeOpt s none = s) ∧
    (∀ (α : Type) (s : Option α), mergeOpt s (some none) = none) ∧
    (∀ (α : Type) (s : Option α) (v : α), mergeOpt s (some (some v)) = some v) ∧
    (∀ (u : User) (p : UserUpdate), applyUserUpd u p =
      { id := u.id, username := mergeReq u.username p.username,
        hashed_password := u.hashed_password,
        type_of_entity := mergeReq u.type_of_entity p.type_of_entity,
        name := mergeReq u.name p.name,
        surname := mergeReq u.surname p.surname,
        email_address := mergeReq u.email_address p.email_address,
        phone_number := mergeReq u.phone_number p.phone_number,
        vat_id := mergeOpt u.vat_id p.vat_id,
        bank_account := mergeOpt u.bank_account p.bank_account,
        is_active := mergeReq u.is_active p.is_active,
        deactivation_date := mergeOpt u.deactivation_date p.deactivation_date,
        delete_at := mergeOpt u.delete_at p.delete_at }) ∧
    (∀ (store : Int → Option User) (p : UserUpdate) (uid : Int) (u : User),
      store uid = some u →
      update_user store p uid = (.ok (applyUserUpd u p),
        fun i => if i = uid then some (applyUserUpd u p) else store i)) ∧
    (∀ (raw : ProfileRaw) (d : ProfileData),
      validateProfilePydantic raw = .ok d →
      raw.name ≠ none ∧ raw.performance_type ≠ none ∧ raw.description ≠ none ∧
      raw.bio ≠ none ∧ raw.social_media ≠ none ∧ raw.photos ≠ none ∧
      raw.videos ≠ none ∧ raw.audios ≠ none ∧ raw.online_press ≠ none) ∧
    (∀ (store : Int → Option Profile) (pid : Int) (raw : ProfileRaw) (uid : Int)
      (e : PyExn), validateProfilePydantic raw = .error e →
      update_profile store pid raw uid = (.error (pyExnToApiError e), store)) ∧
    (∀ (p : Profile) (d : ProfileData), applyProfileUpd p d =
      { owner_user_id := p.owner_user_id, name := d.name,
        performance_type := d.performance_type, description := d.description,
        bio := d.bio, social_media := d.social_media,
        stage_plan := mergeOpt p.stage_plan d.stage_plan,
        tech_rider := mergeOpt p.tech_rider d.tech_rider,
        photos := d.photos, videos := d.videos, audios := d.audios,
        online_press := d.online_press,
        website := mergeOpt p.website d.website }) ∧
    (∀ (store : Int → Option Profile) (pid : Int) (p : Profile) (d : ProfileData),
      store pid = some p →
      dm_update_profile store pid d p.owner_user_id = (.ok (applyProfileUpd p d),
        fun i => if i = pid then some (applyProfileUpd p d) else store i)) ∧
    (∀ (store : Int → Option Profile) (pid : Int) (raw : ProfileRaw)
      (d : ProfileData) (uid : Int), validateProfilePydantic raw = .ok d →
      update_profile store pid raw uid = dm_update_profile store pid d uid) ∧
    (∀ (raw : ContractUpdateRaw) (u : ContractUpdate),
      validateContractUpdatePydantic raw = .ok u →
      raw.name ≠ none ∧ raw.offeree_id ≠ none ∧ raw.total_fee ≠ none ∧
      raw.currency_code ≠ none ∧ raw.upon_signing ≠ none ∧
      raw.upon_completion ≠ none ∧ raw.payment_method ≠ none) ∧
    (∀ (store : Int → Option Contract) (cid : Int) (raw : ContractUpdateRaw)
      (uid : Int) (e : PyExn), validateContractUpdatePydantic raw = .error e →
      update_contract_route store cid raw uid = (.error (pyExnToApiError e), store)) ∧
    (∀ (c : Contract) (q : ContractUpdate), applyContractUpd c q =
      { owner_user_id := c.owner_user_id,
        name := mergeReq c.name q.name,
        offeree_id := mergeReq c.offeree_id q.offeree_id,
        total_fee := mergeReq c.total_fee q.total_fee,
        currency_code := mergeReq c.currency_code q.currency_code,
        upon_signing := mergeReq c.upon_signing q.upon_signing,
        upon_completion := mergeReq c.upon_completion q.upon_completion,
        payment_method := mergeReq c.payment_method q.payment_method,
        travel_expenses := mergeOpt c.travel_expenses q.travel_expenses,
        accommodation_expenses := mergeOpt c.accommodation_expenses q.accommodation_expenses,
        other_expenses := mergeOpt c.other_expenses q.other_expenses,
        disabled := c.disabled, disabled_at := c.disabled_at,
        signed_at := c.signed_at, delete_at := c.delete_at }) ∧
    (∀ (store : Int → Option Contract) (cid : Int) (c : Contract) (q : ContractUpdate),
      store cid = some c → c.disabled = false →
      update_contract store cid q c.owner_user_id = (.ok (applyContractUpd c q),
        fun i => if i = cid then some (applyContractUpd c q) else store i)) ∧
    (∀ (today : Int) (raw : EventUpdateRaw) (u : EventUpdate),
      validateEventUpdatePydantic today raw = .ok u →
      raw.name ≠ none ∧ raw.contract_id ≠ none ∧ raw.profile_offeror_id ≠ none ∧
      raw.profile_offeree_id ≠ none ∧ raw.date ≠ none ∧ raw.duration ≠ none ∧
      raw.start ≠ none ∧ raw.end_ ≠ none ∧ raw.meal_location_name ≠ none ∧
      raw.meal_location_address ≠ none) ∧
    (∀ (today : Int) (cstore : Int → Option Contract) (estore : Int → Option Event)
      (eid : Int) (raw : EventUpdateRaw) (uid : Int) (e : PyExn),
      validateEventUpdatePydantic today raw = .error e →
      update_event_route today cstore estore eid raw uid
        = (.error (pyExnToApiError e), estore)) ∧
    (∀ (e : Event) (q : EventUpdate), applyEventUpd e q =
      { id := e.id, created_at := e.created_at,
        name := mergeReq e.name q.name,
        contract_id := mergeReq e.contract_id q.contract_id,
        profile_offeror_id := mergeReq e.profile_offeror_id q.profile_offeror_id,
        profile_offeree_id := mergeReq e.profile_offeree_id q.profile_offeree_id,
        contact_person := mergeOpt e.contact_person q.contact_person,
        contact_phone := mergeOpt e.contact_phone q.contact_phone,
        date := mergeReq e.date q.date,
        duration := mergeReq e.duration q.duration,
        start := mergeReq e.start q.start,
        end_ := mergeReq e.end_ q.end_,
        arrive := mergeOpt e.arrive q.arrive,
        stage_set := mergeOpt e.stage_set q.stage_set,
        stage_check := mergeOpt e.stage_check q.stage_check,
        catering_open := mergeOpt e.catering_open q.catering_open,
        catering_close := mergeOpt e.catering_close q.catering_close,
        meal_time := mergeOpt e.meal_time q.meal_time,
        meal_location_name := mergeReq e.meal_location_name q.meal_location_name,
        meal_location_address := mergeReq e.meal_location_address q.meal_location_address,
        accommodation_id := mergeOpt e.accommodation_id q.accommodation_id }) ∧
    (∀ (cstore : Int → Option Contract) (estore : Int → Option Event) (eid : Int)
      (e : Event) (c : Contract) (q : EventUpdate),
      estore eid = some e → cstore e.contract_id = some c →
      update_event cstore estore eid q c.owner_user_id = (.ok (applyEventUpd e q),
        fun i => if i = eid then some (applyEventUpd e q) else estore i)) ∧
    (∀ (a : Accommodation) (q : AccommodationUpdate), applyAccommodationUpd a q =
      { id := a.id, name := mergeReq a.name q.name,
        contact_person := mergeReq a.contact_person q.contact_person,
        address := mergeReq a.address q.address,
        telephone_number := mergeReq a.telephone_number q.telephone_number,
        email := mergeOpt a.email q.email,
        website := mergeOpt a.website q.website,
        url := mergeOpt a.url q.url,
        check_in := mergeOpt a.check_in q.check_in,
        check_out := mergeOpt a.check_out q.check_out }) ∧
    (∀ (astore : Int → Option Accommodation) (aid : Int) (a : Accommodation)
      (q : AccommodationUpdate),
      astore aid = some a →
      dm_update_accommodation astore aid q = (.ok (applyAccommodationUpd a q),
        fun i => if i = aid then some (applyAccommodationUpd a q) else astore i)) := by
  refine ⟨fun α s => rfl, fun α s v => rfl, fun α s => rfl, fun α s => rfl,
    fun α s v => rfl, fun u p => rfl, ?_, ?_, ?_, fun p d => rfl, ?_, ?_,
    ?_, ?_, fun c q => rfl, ?_, ?_, ?_, fun e q => rfl, ?_, fun a q => rfl, ?_⟩
  · intro store p uid u hs
    simp [update_user, hs]
  · intro raw d h
    simp only [validateProfilePydantic] at h
    rcases except_bind_ok _ _ _ h with ⟨x1, h1, h⟩
    rcases except_bind_ok _ _ _ h with ⟨x2, h2, h⟩
    rcases except_bind_ok _ _ _ h with ⟨x3, h3, h⟩
    rcases except_bind_ok _ _ _ h with ⟨x4, h4, h⟩
    rcases except_bind_ok _ _ _ h with ⟨x5, h5, h⟩
    rcases except_bind_ok _ _ _ h with ⟨x6, h6, h⟩
    rcases except_bind_ok _ _ _ h with ⟨x7, h7, h⟩
    rcases except_bind_ok _ _ _ h with ⟨x8, h8, h⟩
    rcases except_bind_ok _ _ _ h with ⟨x9, h9, h⟩
    exact ⟨reqField_ok_ne_none h1, reqField_ok_ne_none h2, reqField_ok_ne_none h3,
      reqField_ok_ne_none h4, reqField_ok_ne_none h5, reqField_ok_ne_none h6,
      reqField_ok_ne_none h7, reqField_ok_ne_none h8, reqField_ok_ne_none h9⟩
  · intro store pid raw uid e hv
    simp [update_profile, hv]
  · intro store pid p d hs
    simp [dm_update_profile, hs]
  · intro store pid raw d uid hv
    simp [update_profile, hv]
  · intro raw u h
    simp only [validateContractUpdatePydantic] at h
    rcases except_bind_ok _ _ _ h with ⟨x1, h1, h⟩
    rcases except_bind_ok _ _ _ h with ⟨x2, h2, h⟩
    rcases except_bind_ok _ _ _ h with ⟨x3, h3, h⟩
    rcases except_bind_ok _ _ _ h with ⟨x4, h4, h⟩
    rcases except_bind_ok _ _ _ h with ⟨x5, h5, h⟩
    rcases except_bind_ok _ _ _ h with ⟨x6, h6, h⟩
    rcases except_bind_ok _ _ _ h with ⟨x7, h7, h⟩
    rcases except_bind_ok _ _ _ h with ⟨x8, h8, h⟩
    exact ⟨reqNullableField_ok_ne_none h1, reqNullableField_ok_ne_none h2,
      reqNullableField_ok_ne_none h3, reqNullableField_ok_ne_none h4,
      reqNullableField_ok_ne_none h6, reqNullableField_ok_ne_none h7,
      reqNullableField_ok_ne_none h8⟩
  · intro store cid raw uid e hv
    simp [update_contract_route, hv]
  · intro store cid c q hs hd
    simp [update_contract, hs, hd]
  · intro today raw u h
    simp only [validateEventUpdatePydantic] at h
    rcases except_bind_ok _ _ _ h with ⟨x1, h1, h⟩
    rcases except_bind_ok _ _ _ h with ⟨x2, h2, h⟩
    rcases except_bind_ok _ _ _ h with ⟨x3, h3, h⟩
    rcases except_bind_ok _ _ _ h with ⟨x4, h4, h⟩
    rcases except_bind_ok _ _ _ h with ⟨x5, h5, h⟩
    rcases except_bind_ok _ _ _ h with ⟨x6, h6, h⟩
    rcases except_bind_ok _ _ _ h with ⟨x7, h7, h⟩
    rcases except_bind_ok _ _ _ h with ⟨x8, h8, h⟩
    rcases except_bind_ok _ _ _ h with ⟨x9, h9, h⟩
    rcases except_bind_ok _ _ _ h with ⟨x10, h10, h⟩
    rcases except_bind_ok _ _ _ h with ⟨x11, h11, h⟩
    rcases except_bind_ok _ _ _ h with ⟨x12, h12, h⟩
    rcases except_bind_ok _ _ _ h with ⟨x13, h13, h⟩
    exact ⟨reqNullableField_ok_ne_none h1, reqNullableField_ok_ne_none h2,
      reqNullableField_ok_ne_none h3, reqNullableField_ok_ne_none h4,
      reqNullableField_ok_ne_none h5, reqNullableField_ok_ne_none h7,
      reqNullableField_ok_ne_none h9, reqNullableField_ok_ne_none h11,
      reqNullableField_ok_ne_none h12, reqNullableField_ok_ne_none h13⟩
  · intro today cstore estore eid raw uid e hv
    simp [update_event_route, hv]
  · intro cstore estore eid e c q hs hc
    simp [update_event, hs, hc]
  · intro astore aid a q hs
    simp [dm_update_accommodation, hs]

/-- C2 witness: the partial profile payload is rejected with the store
unchanged; the full valid profile payload merges and is returned; a
one-field user update at a concrete store changes that field and keeps
the rest. -/
theorem update_merge_presence_rule_witness :
    update_profile profileStoreW 10 { name := some (some "X") } 1
      = (.error (.validationError "Field required"), profileStoreW) ∧
    dm_update_profile profileStoreW 10 profileDataW 1
      = (.ok (applyProfileUpd profileW profileDataW),
         fun i => if i = 10 then some (applyProfileUpd profileW profileDataW)
                  else profileStoreW i) ∧
    update_user userStoreW { name := some "Anna B" } 1
      = (.ok (applyUserUpd userW { name := some "Anna B" }),
         fun i => if i = 1 then some (applyUserUpd userW { name := some "Anna B" })
                  else userStoreW i) ∧
    (applyUserUpd userW { name := some "Anna B" }).surname = userW.surname := by
  obtain ⟨hm1, hm2, hm3, hm4, hm5, hu6, hu7, hp1, hp2, hp3, hp4, hp5, hc1, hc2,
    hc3, hc4, he1, he2, he3, he4, ha1, ha2⟩ := update_merge_presence_rule
  refine ⟨hp2 profileStoreW 10 { name := some (some "X") } 1
      (.valueError "Field required") rfl, ?_, ?_, rfl⟩
  · exact hp4 profileStoreW 10 profileW profileDataW (by simp [profileStoreW])
  · exact hu7 userStoreW { name := some "Anna B" } 1 userW (by simp [userStoreW])

/-- C5: for every stored profile and every actor different from its owner,
profile update and delete fail with FORBIDDEN ("not the owner") and leave
the store unchanged — both at the data-manager layer (for every validated
payload) and through the full update route (for every raw body that
validates) — while the same operations by the owner succeed. -/
theorem profile_owner_only (store : Int → Option Profile) (profile_id : Int)
    (p : Profile) (hs : store profile_id = some p) (d : ProfileData)
    (actor : Int) (hb : actor ≠ p.owner_user_id) :
    dm_update_profile store profile_id d actor
      = (.error (.forbidden "not the owner"), store) ∧
    delete_profile store profile_id actor
      = (.error (.forbidden "not the owner"), store) ∧
    (dm_update_profile store profile_id d p.owner_user_id).1
      = .ok (applyProfileUpd p d) ∧
    (delete_profile store profile_id p.owner_user_id).1 = .ok true ∧
    (∀ raw : ProfileRaw, validateProfilePydantic raw = .ok d →
      update_profile store profile_id raw actor
        = (.error (.forbidden "not the owner"), store)) := by
  refine ⟨?_, ?_, ?_, ?_, ?_⟩
  · simp [dm_update_profile, hs, hb]
  · simp [delete_profile, hs, hb]
  · simp [dm_update_profile, hs]
  · simp [delete_profile, hs]
  · intro raw hv
    simp [update_profile, hv, dm_update_profile, hs, hb]

/-- C5 witness: actor 2 is denied through the full route on the profile
owned by user 1 (with a fully valid body), and the owner's own update
succeeds. -/
theorem profile_owner_only_witness :
    update_profile profileStoreW 10 profileRawW 2
      = (.error (.forbidden "not the owner"), profileStoreW) ∧
    (dm_update_profile profileStoreW 10 profileDataW 1).1
      = .ok (applyProfileUpd profileW profileDataW) := by
  have h := profile_owner_only profileStoreW 10 profileW (by simp [profileStoreW])
    profileDataW 2 (by decide)
  exact ⟨h.2.2.2.2 profileRawW rfl, h.2.2.1⟩

/-- C6: the accommodation routes never consult the actor — for every
data-manager implementation (whose interface functions take no actor
parameter), read, update and delete of any accommodation record produce
the same outcome for any two authenticated actors. -/
theorem accommodation_actor_independent :
    (∀ (Store Res : Type) (dm_get : Int → Store → Res) (accommodation_id : Int)
      (u1 u2 : User) (db : Store),
      get_accommodation_route dm_get accommodation_id u1 db
        = get_accommodation_route dm_get accommodation_id u2 db) ∧
    (∀ (Payload Store Res : Type) (dm_upd : Int → Payload → Store → Res)
      (accommodation_id : Int) (payload : Payload) (u1 u2 : User) (db : Store),
      update_accommodation_route dm_upd accommodation_id payload u1 db
        = update_accommodation_route dm_upd accommodation_id payload u2 db) ∧
    (∀ (Store Res : Type) (dm_del : Int → Store → Res) (accommodation_id : Int)
      (u1 u2 : User) (db : Store),
      delete_accommodation_route dm_del accommodation_id u1 db
        = delete_accommodation_route dm_del accommodation_id u2 db) := by
  refine ⟨?_, ?_, ?_⟩ <;> intros <;> rfl

/-- C8: the self-read of a User goes through the UserNoPwdPydantic
projection, which is independent of the stored credential and preserves
id, username, contact fields, the active flag and both timestamps. -/
theorem user_me_credential_free :
    (∀ (u : User) (pwd : String),
      toUserNoPwd { u with hashed_password := pwd } = toUserNoPwd u) ∧
    (∀ u : User, (toUserNoPwd u).id = u.id ∧ (toUserNoPwd u).username = u.username ∧
      (toUserNoPwd u).email_address = u.email_address ∧
      (toUserNoPwd u).phone_number = u.phone_number ∧
      (toUserNoPwd u).vat_id = u.vat_id ∧
      (toUserNoPwd u).bank_account = u.bank_account ∧
      (toUserNoPwd u).is_active = u.is_active ∧
      (toUserNoPwd u).deactivation_date = u.deactivation_date ∧
      (toUserNoPwd u).delete_at = u.delete_at) ∧
    (∀ (store : Int → Option User) (uid : Int) (u : User), store uid = some u →
      get_user_me store uid = .ok (toUserNoPwd u)) := by
  refine ⟨fun u pwd => rfl,
    fun u => ⟨rfl, rfl, rfl, rfl, rfl, rfl, rfl, rfl, rfl⟩, ?_⟩
  intro store uid u hs
  simp [get_user_me, hs]

/-- C8 witness: the self-read of the concrete stored user returns its
credential-free projection. -/
theorem user_me_credential_free_witness :
    get_user_me userStoreW 1 = .ok (toUserNoPwd userW) :=
  user_me_credential_free.2.2 userStoreW 1 userW (by simp [userStoreW])

/-- C10: user soft-deletion is reversible through the normal update path —
the user update payload admits is_active, deactivation_date and delete_at,
so for every soft-deleted stored user there is an update_user request by
that same user whose result is active again with the deactivation (and
deletion) timestamps cleared.  (By contrast, ContractUpdate has no
disabled field at all: see the C3 theorem.) -/
theorem user_soft_delete_reversible (store : Int → Option User) (u : User)
    (hs : store u.id = some u) (hinact : u.is_active = false) (t : Int)
    (hdeact : u.deactivation_date = some t) :
    ∃ payload : UserUpdate, ∃ u2 : User,
      (update_user store payload u.id).1 = .ok u2 ∧
      u2.is_active = true ∧ u2.deactivation_date = none ∧ u2.delete_at = none ∧
      u2.id = u.id ∧ u2.username = u.username := by
  refine ⟨{ is_active := some true, deactivation_date := some none,
            delete_at := some none },
    applyUserUpd u { is_active := some true, deactivation_date := some none,
                     delete_at := some none }, ?_, rfl, rfl, rfl, rfl, rfl⟩
  simp [update_user, hs]

/-- C10 witness: the soft-deleted concrete user (inactive, deactivated at
100) is restored by an update request of their own. -/
theorem user_soft_delete_reversible_witness :
    ∃ payload : UserUpdate, ∃ u2 : User,
      (update_user userStoreW payload userW.id).1 = Except.ok u2 ∧
      u2.is_active = true ∧ u2.deactivation_date = none ∧ u2.delete_at = none ∧
      u2.id = userW.id ∧ u2.username = userW.username :=
  user_soft_delete_reversible userStoreW userW (by simp [userStoreW, userW]) rfl 100 rfl

/-- A store slot holding a disabled contract still holds a disabled
contract after any single public-API contract operation. -/
theorem contractStep_preserves_disabled (store : Int → Option Contract) (cid : Int)
    (h : ∃ c, store cid = some c ∧ c.disabled = true) (op : ContractOp) :
    ∃ c, contractStep store op cid = some c ∧ c.disabled = true := by
  rcases h with ⟨c, hc, hd⟩
  cases op with
  | createOp nid data actor =>
    cases hn : store nid with
    | some c2 =>
      exact ⟨c, by simp [contractStep, hn, hc], hd⟩
    | none =>
      refine ⟨c, ?_, hd⟩
      have hcn : ¬ cid = nid := by
        intro hx
        rw [hx, hn] at hc
        exact Option.noConfusion hc
      cases hv : contractValidate data with
      | error e => simp [contractStep, hn, create_contract, hv, hc]
      | ok d => simp [contractStep, hn, create_contract, hv, hcn, hc]
  | updateOp tid payload actor =>
    by_cases ht : tid = cid
    · subst ht
      by_cases ha : actor = c.owner_user_id
      · exact ⟨c, by simp [contractStep, update_contract, hc, ha, hd], hd⟩
      · exact ⟨c, by simp [contractStep, update_contract, hc, ha], hd⟩
    · have htc : ¬ cid = tid := fun hx => ht hx.symm
      cases hs : store tid with
      | none => exact ⟨c, by simp [contractStep, update_contract, hs, hc], hd⟩
      | some c2 =>
        by_cases ha : actor = c2.owner_user_id
        · by_cases hdis : c2.disabled
          · exact ⟨c, by simp [contractStep, update_contract, hs, ha, hdis, hc], hd⟩
          · exact ⟨c, by simp [contractStep, update_contract, hs, ha, hdis, htc, hc], hd⟩
        · exact ⟨c, by simp [contractStep, update_contract, hs, ha, hc], hd⟩
  | disableOp tid t actor =>
    by_cases ht : tid = cid
    · subst ht
      by_cases ha : actor = c.owner_user_id
      · exact ⟨{ c with disabled := true, disabled_at := some t },
          by simp [contractStep, disable_contract, hc, ha], rfl⟩
      · exact ⟨c, by simp [contractStep, disable_contract, hc, ha], hd⟩
    · have htc : ¬ cid = tid := fun hx => ht hx.symm
      cases hs : store tid with
      | none => exact ⟨c, by simp [contractStep, disable_contract, hs, hc], hd⟩
      | some c2 =>
        by_cases ha : actor = c2.owner_user_id
        · exact ⟨c, by simp [contractStep, disable_contract, hs, ha, htc, hc], hd⟩
        · exact ⟨c, by simp [contractStep, disable_contract, hs, ha, hc], hd⟩

/-- A store slot holding a disabled contract still holds a disabled
contract after any sequence of public-API contract operations. -/
theorem runContractOps_preserves_disabled (ops : List ContractOp) :
    ∀ (store : Int → Option Contract) (cid : Int),
      (∃ c, store cid = some c ∧ c.disabled = true) →
      ∃ c, runContractOps store ops cid = some c ∧ c.disabled = true := by
  induction ops with
  | nil => intro store cid h; exact h
  | cons op rest ih =>
    intro store cid h
    exact ih (contractStep store op) cid (contractStep_preserves_disabled store cid h op)

/-- C3: once a contract is disabled, no sequence of public-API contract
operations returns it to the active state; every update attempt on it
fails and leaves the store unchanged; and no update payload can carry the
disabled flag or disabled_at (ContractUpdatePydantic declares neither), so
applying any update payload leaves them unchanged. -/
theorem contract_disable_terminal (store : Int → Option Contract) (cid : Int)
    (c : Contract) (hc : store cid = some c) (hd : c.disabled = true) :
    (∀ ops : List ContractOp, ∀ c2, runContractOps store ops cid = some c2 →
      c2.disabled = true) ∧
    (∀ (payload : ContractUpdate) (actor : Int), ∃ msg,
      update_contract store cid payload actor = (.error (.forbidden msg), store)) ∧
    (∀ (c0 : Contract) (payload : ContractUpdate),
      (applyContractUpd c0 payload).disabled = c0.disabled ∧
      (applyContractUpd c0 payload).disabled_at = c0.disabled_at) := by
  refine ⟨?_, ?_, fun c0 payload => ⟨rfl, rfl⟩⟩
  · intro ops c2 h2
    rcases runContractOps_preserves_disabled ops store cid ⟨c, hc, hd⟩ with ⟨c3, hc3, hd3⟩
    rw [h2] at hc3
    cases hc3
    exact hd3
  · intro payload actor
    by_cases ha : actor = c.owner_user_id
    · exact ⟨"contract is disabled (terminal state)",
        by simp [update_contract, hc, ha, hd]⟩
    · exact ⟨"not a party to the contract", by simp [update_contract, hc, ha]⟩

/-- C3 witness: on the concrete disabled contract, a run consisting of an
owner update attempt followed by a fresh creation leaves it disabled. -/
theorem contract_disable_terminal_witness :
    runContractOps contractStoreW
      [ContractOp.updateOp 5 { name := some "New" } 1,
       ContractOp.createOp 6
         { name := "C2", offeree_id := 1, total_fee := 100, currency_code := "USD",
           upon_signing := 50, upon_completion := 50, payment_method := "cash" } 1] 5
      = some contractW ∧
    contractW.disabled = true := by
  refine ⟨by decide, ?_⟩
  exact (contract_disable_terminal contractStoreW 5 contractW
    (by simp [contractStoreW]) rfl).1
    [ContractOp.updateOp 5 { name := some "New" } 1,
     ContractOp.createOp 6
       { name := "C2", offeree_id := 1, total_fee := 100, currency_code := "USD",
         upon_signing := 50, upon_completion := 50, payment_method := "cash" } 1]
    contractW (by decide)

end MVP
